import Mathlib

/-!
Verification development for the brand-guidelines-builder pipeline.

The repository's frontend pages (`frontend/app/page.tsx`,
`frontend/app/extract/[jobId]/page.tsx`, `frontend/app/preview/[jobId]/page.tsx`)
are embedded directly.  The backend (FastAPI routes, the Celery orchestrator,
`src/models/job.py`, `src/utils/color_utils.py`) is not part of the provided
source tree; those operations are modelled from the specification and each such
definition says so in its doc comment.
-/

namespace BrandGuidelines

/-! ## Backend job state machine (modelled from the spec, §4.6) -/

/-- Modelled from the spec: the `JobStatus` enum of the missing backend
`src/models/job.py` — the eight forward states of §4.6 plus the terminal
FAILED state. -/
inductive JobState where
  | PENDING
  | SCRAPING
  | EXTRACTING_COLORS
  | EXTRACTING_TYPOGRAPHY
  | EXTRACTING_LOGO
  | GENERATING_CONTENT
  | BUILDING_PDF
  | COMPLETED
  | FAILED
deriving DecidableEq, Fintype, Repr

/-- Modelled from the spec: the fixed forward order of §4.6 — each state's
immediate successor, `none` for the terminal states. -/
def nextState : JobState → Option JobState
  | .PENDING => some .SCRAPING
  | .SCRAPING => some .EXTRACTING_COLORS
  | .EXTRACTING_COLORS => some .EXTRACTING_TYPOGRAPHY
  | .EXTRACTING_TYPOGRAPHY => some .EXTRACTING_LOGO
  | .EXTRACTING_LOGO => some .GENERATING_CONTENT
  | .GENERATING_CONTENT => some .BUILDING_PDF
  | .BUILDING_PDF => some .COMPLETED
  | .COMPLETED => none
  | .FAILED => none

/-- Modelled from the spec: the designated progress percentage checkpoint of
each forward state (§4.6); FAILED has none (progress is frozen on failure). -/
def checkpoint : JobState → Option Nat
  | .PENDING => some 0
  | .SCRAPING => some 10
  | .EXTRACTING_COLORS => some 30
  | .EXTRACTING_TYPOGRAPHY => some 45
  | .EXTRACTING_LOGO => some 55
  | .GENERATING_CONTENT => some 70
  | .BUILDING_PDF => some 90
  | .COMPLETED => some 100
  | .FAILED => none

/-- Modelled from the spec: the eight states of §4.6 in their fixed forward
order. -/
def forwardStates : List JobState :=
  [.PENDING, .SCRAPING, .EXTRACTING_COLORS, .EXTRACTING_TYPOGRAPHY,
   .EXTRACTING_LOGO, .GENERATING_CONTENT, .BUILDING_PDF, .COMPLETED]

/-- Modelled from the wire format: the lowercase status strings the backend
serializes and the frontend pages compare against (`'completed'`, `'failed'`,
and the `STEPS` keys). -/
def stateKey : JobState → String
  | .PENDING => "pending"
  | .SCRAPING => "scraping"
  | .EXTRACTING_COLORS => "extracting_colors"
  | .EXTRACTING_TYPOGRAPHY => "extracting_typography"
  | .EXTRACTING_LOGO => "extracting_logo"
  | .GENERATING_CONTENT => "generating_content"
  | .BUILDING_PDF => "building_pdf"
  | .COMPLETED => "completed"
  | .FAILED => "failed"

/-- Modelled from the spec: the persisted Job Store shape of §6 and the
`JobProgress` model of the missing backend `src/models/job.py`. -/
structure JobProgress where
  job_id : String
  status : JobState
  progress_percent : Nat
  current_step : String
  error_message : Option String
  pdf_path : Option String
deriving DecidableEq, Repr

/-- Modelled from the spec: a Job is created at submission time with
status PENDING, progress 0, and no error or result (§3, §6). -/
def initJob (id : String) : JobProgress :=
  { job_id := id
    status := .PENDING
    progress_percent := 0
    current_step := "pending"
    error_message := none
    pdf_path := none }

/-- Modelled from the spec: the Orchestrator's transitions on a Job (§4.6).
`advance` enters the immediate successor state and sets its checkpoint,
clearing the error and setting the result handle exactly on COMPLETED;
`fail` moves any non-terminal state to FAILED with an error message, freezing
progress and leaving the result handle untouched. -/
inductive JobStep : JobProgress → JobProgress → Prop where
  | advance (j j' : JobProgress) (s' : JobState) (c : Nat) (handle : String)
      (hn : nextState j.status = some s')
      (hc : checkpoint s' = some c)
      (hid : j'.job_id = j.job_id)
      (hstat : j'.status = s')
      (hprog : j'.progress_percent = c)
      (herr : j'.error_message = none)
      (hpdf : j'.pdf_path = if s' = JobState.COMPLETED then some handle else none) :
      JobStep j j'
  | fail (j j' : JobProgress) (msg : String)
      (hc : j.status ≠ JobState.COMPLETED)
      (hf : j.status ≠ JobState.FAILED)
      (hid : j'.job_id = j.job_id)
      (hstat : j'.status = JobState.FAILED)
      (hprog : j'.progress_percent = j.progress_percent)
      (herr : j'.error_message = some msg)
      (hpdf : j'.pdf_path = j.pdf_path) :
      JobStep j j'

/-- A job snapshot reachable by the Orchestrator from some freshly created
job. -/
def Reachable (j : JobProgress) : Prop :=
  ∃ id, Relation.ReflTransGen JobStep (initJob id) j

/-- The per-snapshot invariant of §3 and §6: error_message is set iff the job
is FAILED, the result handle iff it is COMPLETED, and a non-FAILED job's
progress sits at its state's checkpoint. -/
def JobInv (j : JobProgress) : Prop :=
  (j.error_message.isSome ↔ j.status = JobState.FAILED)
    ∧ (j.pdf_path.isSome ↔ j.status = JobState.COMPLETED)
    ∧ (j.status ≠ JobState.FAILED → checkpoint j.status = some j.progress_percent)

/-- A concrete snapshot of job `w1` at a given forward state and progress,
used to exhibit concrete runs of the state machine. -/
def demoAt (s : JobState) (c : Nat) : JobProgress :=
  { job_id := "w1"
    status := s
    progress_percent := c
    current_step := stateKey s
    error_message := none
    pdf_path := if s = JobState.COMPLETED then some "out.pdf" else none }

/-- A concrete FAILED snapshot. -/
def demoFailed : JobProgress :=
  { job_id := "w2"
    status := .FAILED
    progress_percent := 10
    current_step := "scraping"
    error_message := some "Could not reach the website"
    pdf_path := none }

/-- Modelled from the spec: the Query endpoint (§6) — an idempotent read of the
Job Store that returns the current snapshot and leaves the store unchanged. -/
def query (store : List (String × JobProgress)) (id : String) :
    Option JobProgress × List (String × JobProgress) :=
  ((store.find? (fun e => e.1 == id)).map Prod.snd, store)

/-- Modelled from the spec: the Fetch-result endpoint (§6) — returns the
rendered document handle only for a COMPLETED job, nothing (a client error)
otherwise. -/
def fetchResult (j : JobProgress) : Option String :=
  if j.status = JobState.COMPLETED then j.pdf_path else none

/-- Modelled from the spec: Submit's URL validation (§6, §7a) — only a
syntactically valid absolute HTTP(S) URL is accepted. -/
def isValidHttpUrl (s : String) : Bool :=
  ("http://".toList.isPrefixOf s.toList && s.toList.drop 7 != []) ||
    ("https://".toList.isPrefixOf s.toList && s.toList.drop 8 != [])

/-- Modelled from the spec: the Submit operation (§6) — rejects an invalid URL
before any Job is created, and otherwise returns a freshly created PENDING Job
immediately, before any stage runs. -/
def submit (freshId url : String) : Option JobProgress :=
  if isValidHttpUrl url then some (initJob freshId) else none

/-! ## Frontend embedding

The progress page exists in two variants in the tree (`part_000`, a light
theme, and `part_001`, a dark theme); their `STEPS` tables share keys and
checkpoints and differ only in labels and icons, and their `getStepStatus`
and poll handlers are identical. -/

/-- One entry of the frontend `STEPS` tables (the JSX icon field of the dark
variant is presentational and not embedded). -/
structure Step where
  key : String
  label : String
  progress : Int
deriving DecidableEq, Repr

/-- The `STEPS` table of the light-theme extract page (`part_000`). -/
def STEPS_A : List Step :=
  [⟨"scraping", "Scraping website", 10⟩,
   ⟨"extracting_colors", "Extracting colors", 30⟩,
   ⟨"extracting_typography", "Analyzing typography", 45⟩,
   ⟨"extracting_logo", "Finding logo", 55⟩,
   ⟨"generating_content", "Generating brand content", 70⟩,
   ⟨"building_pdf", "Building PDF", 90⟩]

/-- The `STEPS` table of the dark-theme extract page (`part_001`). -/
def STEPS_B : List Step :=
  [⟨"scraping", "Fetching website", 10⟩,
   ⟨"extracting_colors", "Extracting colors", 30⟩,
   ⟨"extracting_typography", "Analyzing typography", 45⟩,
   ⟨"extracting_logo", "Identifying components", 55⟩,
   ⟨"generating_content", "Generating content", 70⟩,
   ⟨"building_pdf", "Generating PDF", 90⟩]

/-- The frontend `JobStatus` interface: the polled job snapshot as the pages
see it (`url` only appears in the dark variant and is optional). -/
structure JobSnapshot where
  job_id : String
  status : String
  progress_percent : Int
  current_step : String
  error_message : Option String
  pdf_path : Option String
  url : Option String
deriving DecidableEq, Repr

/-- The three values `getStepStatus` can return. -/
inductive StepState where
  | pending
  | active
  | complete
deriving DecidableEq, Repr

/-- The `getStepStatus` helper of both extract pages: no job yet is pending;
a step whose key equals the job's status is active; otherwise a step is
complete exactly when the job's progress exceeds the step's checkpoint. -/
def getStepStatus : Option JobSnapshot → Step → StepState
  | none, _ => .pending
  | some j, step =>
    if j.status = step.key then .active
    else if step.progress < j.progress_percent then .complete
    else .pending

/-- The poll handler's stop condition in both extract pages: `clearInterval`
is called exactly when the fetched status is `completed` (followed by a
redirect to the preview page) or `failed`. -/
def pollStops (d : JobSnapshot) : Bool :=
  d.status == "completed" || d.status == "failed"

/-- The poll handler's redirect condition: `router.push` to the preview page
happens exactly on status `completed`. -/
def pollRedirectsToPreview (d : JobSnapshot) : Bool :=
  d.status == "completed"

/-- The dark extract page's estimated-remaining-time update:
`Math.max(5, Math.round((100 - data.progress_percent) * 0.6))`, in exact
rational arithmetic (`round` rounds half up, as `Math.round` does; for the
integer progress values 0–100 the two agree everywhere, the fractional parts
being multiples of 1/5). -/
def estimatedRemaining (p : ℚ) : ℤ :=
  max 5 (round ((100 - p) * 0.6))

/-- The preview pages' guard in `fetchJob`: a fetched snapshot whose status is
not `completed` triggers `router.push` back to the extract page before the
download action can be used. -/
def previewRedirectsToExtract (d : JobSnapshot) : Bool :=
  d.status != "completed"

/-! ## Color palette normalization (modelled from the spec, §3 and §4.2)

The backend's `src/utils/color_utils.py` and `src/extractors/color_extractor.py`
are not in the tree; hex handling is modelled from the spec's words over
character lists. -/

/-- All hex digit characters, both cases. -/
def hexDigits : List Char :=
  "0123456789abcdefABCDEF".toList

/-- The uppercase hex digit characters. -/
def upperHexDigits : List Char :=
  "0123456789ABCDEF".toList

/-- Whether a character is a hex digit of either case. -/
def isHexDigit (c : Char) : Bool :=
  decide (c ∈ hexDigits)

/-- Uppercasing restricted to the six lowercase hex letters. -/
def hexUp (c : Char) : Char :=
  if c = 'a' then 'A'
  else if c = 'b' then 'B'
  else if c = 'c' then 'C'
  else if c = 'd' then 'D'
  else if c = 'e' then 'E'
  else if c = 'f' then 'F'
  else c

/-- The digits of a hex literal: an optional leading `#` is stripped. -/
def hexBody (l : List Char) : List Char :=
  if l.head? = some '#' then l.drop 1 else l

/-- Modelled from the spec: normalization of a CSS hex literal to 6-digit
uppercase `#RRGGBB` form (§3) — an optional leading `#` is accepted, a
3-digit shorthand is expanded by doubling each digit, anything else is not a
hex color. -/
def normalizeHex (l : List Char) : Option (List Char) :=
  if (hexBody l).all isHexDigit then
    match hexBody l with
    | [a, b, c, d, e, f] =>
        some ['#', hexUp a, hexUp b, hexUp c, hexUp d, hexUp e, hexUp f]
    | [a, b, c] =>
        some ['#', hexUp a, hexUp a, hexUp b, hexUp b, hexUp c, hexUp c]
    | _ => none
  else none

/-- The normalized-form predicate of §3: a `#` followed by exactly six
uppercase hex digits. -/
def isNormalizedHex (l : List Char) : Bool :=
  match l with
  | '#' :: rest => rest.length == 6 && rest.all (fun c => decide (c ∈ upperHexDigits))
  | _ => false

/-- Modelled from the spec: palette assembly pools candidate color literals,
normalizes them, and keeps no duplicate hex value within the same palette
(§3, §4.2). -/
def buildPaletteHexes (cands : List (List Char)) : List (List Char) :=
  (cands.filterMap normalizeHex).dedup

/-- A concrete pool of candidate color literals: a lowercase and an uppercase
spelling of the same red, a 3-digit shorthand, and a non-color token. -/
def demoCands : List (List Char) :=
  [['#', 'f', 'f', '0', '0', '0', '0'],
   ['#', 'F', 'F', '0', '0', '0', '0'],
   ['0', '0', 'f'],
   ['x', 'y', 'z']]

/-- A concrete polled frontend snapshot mid-scrape whose progress already
exceeds the scraping checkpoint. -/
def demoSnap : JobSnapshot :=
  { job_id := "w9"
    status := "scraping"
    progress_percent := 50
    current_step := "Scraping website"
    error_message := none
    pdf_path := none
    url := none }

/-- The scraping entry of the light-theme `STEPS` table. -/
def demoStepA : Step :=
  ⟨"scraping", "Scraping website", 10⟩

/-! ## Helper lemmas -/

/-- Along the forward order, successors are never FAILED or PENDING and both
ends of every edge carry a checkpoint, with the successor's strictly larger. -/
lemma nextState_facts : ∀ s s' : JobState, nextState s = some s' →
    s' ≠ JobState.FAILED ∧ s' ≠ JobState.PENDING ∧
      (checkpoint s).isSome ∧ (checkpoint s').isSome ∧
      (checkpoint s).getD 0 < (checkpoint s').getD 0 := by
  decide

/-- A freshly created job satisfies the snapshot invariant. -/
lemma jobInv_init (id : String) : JobInv (initJob id) := by
  refine ⟨?_, ?_, ?_⟩ <;> simp [initJob, checkpoint]

/-- One Orchestrator transition preserves the snapshot invariant. -/
lemma jobInv_step {j j' : JobProgress} (hinv : JobInv j) (h : JobStep j j') :
    JobInv j' := by
  cases h with
  | advance s' c handle hn hc hid hstat hprog herr hpdf =>
    obtain ⟨hf, -, -, -, -⟩ := nextState_facts j.status s' hn
    refine ⟨?_, ?_, ?_⟩
    · rw [herr, hstat]
      simp [hf]
    · rw [hpdf, hstat]
      by_cases hcomp : s' = JobState.COMPLETED <;> simp [hcomp]
    · intro _
      rw [hstat, hprog, hc]
  | fail msg hcn hfn hid hstat hprog herr hpdf =>
    refine ⟨?_, ?_, ?_⟩
    · rw [herr, hstat]
      simp
    · rw [hpdf, hstat]
      simp [hinv.2.1, hcn]
    · intro hne
      rw [hstat] at hne
      exact absurd rfl hne

/-- Every reachable snapshot satisfies the invariant. -/
lemma reachable_inv {j : JobProgress} (h : Reachable j) : JobInv j := by
  obtain ⟨id, hr⟩ := h
  induction hr with
  | refl => exact jobInv_init id
  | tail _ hstep ih => exact jobInv_step ih hstep

/-- The Orchestrator can advance a demo snapshot one forward edge. -/
lemma demoStep_edge {s s' : JobState} {c c' : Nat}
    (hn : nextState s = some s') (hc : checkpoint s' = some c') :
    JobStep (demoAt s c) (demoAt s' c') :=
  JobStep.advance (demoAt s c) (demoAt s' c') s' c' "out.pdf" hn hc
    rfl rfl rfl rfl rfl

/-- The first edge out of a fresh job: PENDING to SCRAPING. -/
lemma demoStep_first : JobStep (initJob "w1") (demoAt JobState.SCRAPING 10) :=
  JobStep.advance (initJob "w1") (demoAt JobState.SCRAPING 10)
    JobState.SCRAPING 10 "out.pdf" rfl rfl rfl rfl rfl rfl rfl

/-- A complete successful run: the COMPLETED demo snapshot is reachable. -/
lemma demoReach : Reachable (demoAt JobState.COMPLETED 100) := by
  refine ⟨"w1", ?_⟩
  have h1 := demoStep_first
  have h2 : JobStep (demoAt .SCRAPING 10) (demoAt .EXTRACTING_COLORS 30) :=
    demoStep_edge rfl rfl
  have h3 : JobStep (demoAt .EXTRACTING_COLORS 30) (demoAt .EXTRACTING_TYPOGRAPHY 45) :=
    demoStep_edge rfl rfl
  have h4 : JobStep (demoAt .EXTRACTING_TYPOGRAPHY 45) (demoAt .EXTRACTING_LOGO 55) :=
    demoStep_edge rfl rfl
  have h5 : JobStep (demoAt .EXTRACTING_LOGO 55) (demoAt .GENERATING_CONTENT 70) :=
    demoStep_edge rfl rfl
  have h6 : JobStep (demoAt .GENERATING_CONTENT 70) (demoAt .BUILDING_PDF 90) :=
    demoStep_edge rfl rfl
  have h7 : JobStep (demoAt .BUILDING_PDF 90) (demoAt .COMPLETED 100) :=
    demoStep_edge rfl rfl
  exact .tail (.tail (.tail (.tail (.tail (.tail (.tail .refl h1) h2) h3) h4) h5) h6) h7

/-- Uppercasing a hex digit lands in the uppercase hex digits. -/
lemma hexUp_mem : ∀ c ∈ hexDigits, hexUp c ∈ upperHexDigits := by
  decide

/-- Bool form of `hexUp_mem` through `isHexDigit`. -/
lemma hexUp_upper {c : Char} (h : isHexDigit c = true) :
    decide (hexUp c ∈ upperHexDigits) = true :=
  decide_eq_true (hexUp_mem c (of_decide_eq_true h))

/-- Whatever `normalizeHex` accepts comes out in 6-digit uppercase form. -/
lemma normalizeHex_normalized {l h : List Char}
    (hn : normalizeHex l = some h) : isNormalizedHex h = true := by
  unfold normalizeHex at hn
  split at hn
  case isTrue hcond =>
    split at hn
    · rename_i a b c d e f heq
      obtain rfl := Option.some.inj hn
      rw [heq] at hcond
      simp only [List.all_cons, List.all_nil, Bool.and_eq_true, Bool.and_true] at hcond
      obtain ⟨ha, hb, hc, hd, he, hf⟩ := hcond
      simp [isNormalizedHex, hexUp_upper ha, hexUp_upper hb, hexUp_upper hc,
        hexUp_upper hd, hexUp_upper he, hexUp_upper hf]
    · rename_i a b c heq
      obtain rfl := Option.some.inj hn
      rw [heq] at hcond
      simp only [List.all_cons, List.all_nil, Bool.and_eq_true, Bool.and_true] at hcond
      obtain ⟨ha, hb, hc⟩ := hcond
      simp [isNormalizedHex, hexUp_upper ha, hexUp_upper hb, hexUp_upper hc]
    · exact Option.noConfusion hn
  case isFalse hcond =>
    exact Option.noConfusion hn

/-! ## Claim theorems -/

/-- C1: the job state machine has exactly the eight forward states
PENDING, SCRAPING, EXTRACTING_COLORS, EXTRACTING_TYPOGRAPHY, EXTRACTING_LOGO,
GENERATING_CONTENT, BUILDING_PDF, COMPLETED in this fixed order, every
non-FAILED transition enters the immediate successor at its checkpoint
0, 10, 30, 45, 55, 70, 90, 100, and both frontend `STEPS` tables assign the
six intermediate stage keys the same checkpoints in the same order. -/
theorem stateMachine_order_and_steps_checkpoints :
    (nextState JobState.PENDING = some JobState.SCRAPING
      ∧ nextState JobState.SCRAPING = some JobState.EXTRACTING_COLORS
      ∧ nextState JobState.EXTRACTING_COLORS = some JobState.EXTRACTING_TYPOGRAPHY
      ∧ nextState JobState.EXTRACTING_TYPOGRAPHY = some JobState.EXTRACTING_LOGO
      ∧ nextState JobState.EXTRACTING_LOGO = some JobState.GENERATING_CONTENT
      ∧ nextState JobState.GENERATING_CONTENT = some JobState.BUILDING_PDF
      ∧ nextState JobState.BUILDING_PDF = some JobState.COMPLETED
      ∧ nextState JobState.COMPLETED = none)
    ∧ forwardStates.map checkpoint =
        [some 0, some 10, some 30, some 45, some 55, some 70, some 90, some 100]
    ∧ (∀ j j' : JobProgress, JobStep j j' → j'.status ≠ JobState.FAILED →
        nextState j.status = some j'.status
          ∧ checkpoint j'.status = some j'.progress_percent)
    ∧ STEPS_A.map (fun s => (s.key, s.progress)) =
        ((forwardStates.drop 1).dropLast).map
          (fun st => (stateKey st, ((checkpoint st).getD 0 : Int)))
    ∧ STEPS_B.map (fun s => (s.key, s.progress)) =
        ((forwardStates.drop 1).dropLast).map
          (fun st => (stateKey st, ((checkpoint st).getD 0 : Int))) := by
  refine ⟨by decide, by decide, ?_, by decide, by decide⟩
  intro j j' h hne
  cases h with
  | advance s' c handle hn hc hid hstat hprog herr hpdf =>
    rw [hstat, hprog]
    exact ⟨hn, hc⟩
  | fail msg hcn hfn hid hstat hprog herr hpdf =>
    exact absurd hstat hne

/-- C1 witness: a concrete transition of a fresh job into SCRAPING is entered
from its immediate predecessor PENDING at checkpoint 10. -/
theorem stateMachine_order_witness :
    nextState (initJob "w1").status = some (demoAt JobState.SCRAPING 10).status
      ∧ checkpoint (demoAt JobState.SCRAPING 10).status =
          some (demoAt JobState.SCRAPING 10).progress_percent :=
  stateMachine_order_and_steps_checkpoints.2.2.1 (initJob "w1")
    (demoAt JobState.SCRAPING 10) demoStep_first (by decide)

/-- C2: FAILED and COMPLETED are terminal — no transition of the step relation
leaves them — and the polling client stops polling exactly on an observed
status of `completed` or `failed`. -/
theorem terminal_absorbing_and_poll_stop :
    (∀ j j' : JobProgress,
        j.status = JobState.FAILED ∨ j.status = JobState.COMPLETED →
          ¬ JobStep j j')
    ∧ (∀ d : JobSnapshot,
        pollStops d = true ↔ (d.status = "completed" ∨ d.status = "failed")) := by
  constructor
  · intro j j' hterm hstep
    cases hstep with
    | advance s' c handle hn hc hid hstat hprog herr hpdf =>
      rcases hterm with h | h <;> rw [h] at hn <;> exact Option.noConfusion hn
    | fail msg hcn hfn hid hstat hprog herr hpdf =>
      rcases hterm with h | h
      · exact hfn h
      · exact hcn h
  · intro d
    simp [pollStops]

/-- C2 witness: no transition leaves a concrete FAILED snapshot. -/
theorem terminal_absorbing_witness :
    ¬ JobStep demoFailed (demoAt JobState.SCRAPING 10) :=
  terminal_absorbing_and_poll_stop.1 demoFailed (demoAt JobState.SCRAPING 10)
    (Or.inl rfl)

/-- C3: the checkpoint sequence 0, 10, 30, 45, 55, 70, 90, 100 is strictly
increasing and ends at 100; along any reachable run progress never decreases,
increases strictly on every non-FAILED transition, and a COMPLETED job sits at
exactly 100. -/
theorem progress_strictly_increasing_to_100 :
    (List.Chain' (· < ·) (forwardStates.filterMap checkpoint)
      ∧ (forwardStates.filterMap checkpoint).getLast? = some 100)
    ∧ (∀ j j' : JobProgress, Reachable j → JobStep j j' →
        j.progress_percent ≤ j'.progress_percent
          ∧ (j'.status ≠ JobState.FAILED →
              j.progress_percent < j'.progress_percent))
    ∧ (∀ j : JobProgress, Reachable j → j.status = JobState.COMPLETED →
        j.progress_percent = 100) := by
  refine ⟨⟨by simp [forwardStates, checkpoint, List.chain'_cons], by decide⟩, ?_, ?_⟩
  · intro j j' hre hstep
    have hinv := reachable_inv hre
    cases hstep with
    | advance s' c handle hn hc hid hstat hprog herr hpdf =>
      have hjf : j.status ≠ JobState.FAILED := by
        intro hh
        rw [hh] at hn
        exact Option.noConfusion hn
      have hcp := hinv.2.2 hjf
      obtain ⟨-, -, -, -, hlt⟩ := nextState_facts j.status s' hn
      rw [hcp, hc] at hlt
      simp only [Option.getD_some] at hlt
      rw [hprog]
      exact ⟨Nat.le_of_lt hlt, fun _ => hlt⟩
    | fail msg hcn hfn hid hstat hprog herr hpdf =>
      rw [hprog]
      exact ⟨Nat.le_refl _, fun hne => absurd hstat hne⟩
  · intro j hre hcomp
    have hinv := reachable_inv hre
    have hne : j.status ≠ JobState.FAILED := by
      rw [hcomp]
      exact fun hh => JobState.noConfusion hh
    have := hinv.2.2 hne
    rw [hcomp] at this
    simpa [checkpoint, eq_comm] using this

/-- C3 witness: the first transition of a fresh reachable job strictly raises
progress from 0 to 10. -/
theorem progress_increase_witness :
    (initJob "w1").progress_percent ≤ (demoAt JobState.SCRAPING 10).progress_percent
      ∧ ((demoAt JobState.SCRAPING 10).status ≠ JobState.FAILED →
          (initJob "w1").progress_percent <
            (demoAt JobState.SCRAPING 10).progress_percent) :=
  progress_strictly_increasing_to_100.2.1 (initJob "w1")
    (demoAt JobState.SCRAPING 10) ⟨"w1", Relation.ReflTransGen.refl⟩ demoStep_first

/-- C4: the Fetch-result operation yields the rendered document exactly for a
COMPLETED job, and the preview page redirects back to the extract page on every
fetched snapshot whose status is not `completed`. -/
theorem fetchResult_iff_completed_and_preview_redirect :
    (∀ j : JobProgress, Reachable j →
        ((fetchResult j).isSome ↔ j.status = JobState.COMPLETED))
    ∧ (∀ d : JobSnapshot,
        previewRedirectsToExtract d = false ↔ d.status = "completed") := by
  constructor
  · intro j hre
    have hinv := reachable_inv hre
    by_cases hs : j.status = JobState.COMPLETED
    · simp [fetchResult, hs, hinv.2.1.mpr hs]
    · simp [fetchResult, hs]
  · intro d
    simp [previewRedirectsToExtract]

/-- C4 witness: a reachable COMPLETED snapshot yields its document, and the
preview page does not redirect away from a completed snapshot. -/
theorem fetchResult_witness :
    ((fetchResult (demoAt JobState.COMPLETED 100)).isSome
      ↔ (demoAt JobState.COMPLETED 100).status = JobState.COMPLETED) :=
  fetchResult_iff_completed_and_preview_redirect.1
    (demoAt JobState.COMPLETED 100) demoReach

/-- C5: Submit rejects every URL that is not a syntactically valid absolute
HTTP(S) URL before creating any job, and for a valid URL it immediately
returns a fresh PENDING job at progress 0, before any stage has run. -/
theorem submit_validates_url_before_job_creation :
    (∀ id url : String, isValidHttpUrl url = false → submit id url = none)
    ∧ (∀ id url : String, isValidHttpUrl url = true →
        submit id url = some (initJob id)
          ∧ (initJob id).status = JobState.PENDING
          ∧ (initJob id).progress_percent = 0) := by
  constructor
  · intro id url h
    simp [submit, h]
  · intro id url h
    exact ⟨by simp [submit, h], rfl, rfl⟩

/-- C5 witness: a concrete valid URL yields a fresh job and a concrete
malformed one yields none. -/
theorem submit_validation_witness :
    submit "job-1" "https://stripe.com" = some (initJob "job-1")
      ∧ submit "job-2" "not a url" = none :=
  ⟨(submit_validates_url_before_job_creation.2 "job-1" "https://stripe.com"
      (by decide)).1,
    submit_validates_url_before_job_creation.1 "job-2" "not a url" (by decide)⟩

/-- C6: on every reachable snapshot, error_message is set exactly when the job
is FAILED and the result handle (pdf_path) exactly when it is COMPLETED. -/
theorem error_iff_failed_result_iff_completed :
    ∀ j : JobProgress, Reachable j →
      ((j.error_message.isSome ↔ j.status = JobState.FAILED)
        ∧ (j.pdf_path.isSome ↔ j.status = JobState.COMPLETED)) :=
  fun _ hre => ⟨(reachable_inv hre).1, (reachable_inv hre).2.1⟩

/-- C6 witness: the invariant evaluated on a concrete reachable COMPLETED
snapshot. -/
theorem error_result_invariant_witness :
    (((demoAt JobState.COMPLETED 100).error_message.isSome
        ↔ (demoAt JobState.COMPLETED 100).status = JobState.FAILED)
      ∧ ((demoAt JobState.COMPLETED 100).pdf_path.isSome
        ↔ (demoAt JobState.COMPLETED 100).status = JobState.COMPLETED)) :=
  error_iff_failed_result_iff_completed (demoAt JobState.COMPLETED 100) demoReach

/-- C7: every hex value of a built palette is in normalized 6-digit uppercase
form and no two entries of the same palette share a hex value. -/
theorem palette_normalized_and_nodup :
    (∀ cands : List (List Char), (buildPaletteHexes cands).Nodup)
    ∧ (∀ (cands : List (List Char)) (h : List Char),
        h ∈ buildPaletteHexes cands → isNormalizedHex h = true) := by
  constructor
  · intro cands
    exact List.nodup_dedup _
  · intro cands h hm
    rw [buildPaletteHexes, List.mem_dedup] at hm
    obtain ⟨a, -, ha⟩ := List.mem_filterMap.mp hm
    exact normalizeHex_normalized ha

/-- C7 witness: the demo candidate pool builds a duplicate-free palette and
its first entry is in normalized form. -/
theorem palette_witness :
    (buildPaletteHexes demoCands).Nodup
      ∧ isNormalizedHex ['#', 'F', 'F', '0', '0', '0', '0'] = true :=
  ⟨palette_normalized_and_nodup.1 demoCands,
    palette_normalized_and_nodup.2 demoCands _ (by decide)⟩

/-- C8: Query is an idempotent read — it leaves the store unchanged and two
consecutive queries with no intervening orchestrator step return equal
snapshots. -/
theorem query_idempotent_read :
    ∀ (store : List (String × JobProgress)) (id : String),
      (query store id).2 = store
        ∧ (query store id).1 = (query (query store id).2 id).1 :=
  fun _ _ => ⟨rfl, rfl⟩

/-- C8 witness: the read on a concrete one-job store. -/
theorem query_idempotent_witness :
    (query [("a", initJob "a")] "a").2 = [("a", initJob "a")]
      ∧ (query [("a", initJob "a")] "a").1 =
          (query (query [("a", initJob "a")] "a").2 "a").1 :=
  query_idempotent_read [("a", initJob "a")] "a"

/-- C9: getStepStatus is total over the three step states, `active` takes
precedence over `complete` whenever the snapshot's status equals the step key,
`complete` holds exactly when the status differs and progress strictly exceeds
the step's checkpoint, and at exact equality a non-active step is `pending`. -/
theorem getStepStatus_active_precedence :
    (∀ (j : Option JobSnapshot) (s : Step),
        getStepStatus j s = StepState.pending
          ∨ getStepStatus j s = StepState.active
          ∨ getStepStatus j s = StepState.complete)
    ∧ (∀ (j : JobSnapshot) (s : Step), j.status = s.key →
        getStepStatus (some j) s = StepState.active)
    ∧ (∀ (j : JobSnapshot) (s : Step), j.status ≠ s.key →
        (getStepStatus (some j) s = StepState.complete
          ↔ s.progress < j.progress_percent))
    ∧ (∀ (j : JobSnapshot) (s : Step), j.status ≠ s.key →
        j.progress_percent = s.progress →
        getStepStatus (some j) s = StepState.pending) := by
  refine ⟨?_, ?_, ?_, ?_⟩
  · intro j s
    cases j with
    | none => exact Or.inl rfl
    | some j =>
      simp only [getStepStatus]
      split_ifs <;> simp
  · intro j s h
    simp [getStepStatus, h]
  · intro j s h
    simp only [getStepStatus, if_neg h]
    split_ifs with hlt <;> simp [hlt]
  · intro j s h heq
    simp [getStepStatus, h, heq]

/-- C9 witness: a snapshot mid-scrape at progress 50 still reports the
scraping step `active` although 50 exceeds the step's checkpoint 10. -/
theorem getStepStatus_witness :
    getStepStatus (some demoSnap) demoStepA = StepState.active :=
  getStepStatus_active_precedence.2.1 demoSnap demoStepA rfl

/-- C10: the displayed estimated remaining time equals
max(5, round((100 − progress) · 0.6)), is always at least 5 seconds, and is
non-increasing as progress increases. -/
theorem estimatedRemaining_bounds_and_antitone :
    (∀ p : ℚ, estimatedRemaining p = max 5 (round ((100 - p) * 0.6)))
    ∧ (∀ p : ℚ, 5 ≤ estimatedRemaining p)
    ∧ (∀ p q : ℚ, p ≤ q → estimatedRemaining q ≤ estimatedRemaining p) := by
  refine ⟨fun p => rfl, fun p => le_max_left _ _, ?_⟩
  intro p q hpq
  unfold estimatedRemaining
  refine max_le_max le_rfl ?_
  rw [round_eq, round_eq]
  apply Int.floor_le_floor
  have h6 : (0 : ℚ) ≤ 0.6 := by norm_num
  nlinarith [mul_le_mul_of_nonneg_right (sub_le_sub_left hpq (100 : ℚ)) h6]

/-- C10 witness: at progress 90 the estimate is no larger than at
progress 40. -/
theorem estimatedRemaining_witness :
    estimatedRemaining 90 ≤ estimatedRemaining 40 :=
  estimatedRemaining_bounds_and_antitone.2.2 40 90 (by norm_num)

end BrandGuidelines
